import Mathlib

/-!
Verification of the Hotspot-detection dataset generators.

The Python sources are shallowly embedded: integer pixel quantities become
`ℤ`, floating-point quantities become `ℚ` (exact rational arithmetic),
the process-wide random source becomes explicit pre-drawn values or
abstract function parameters, and the filesystem becomes boolean oracles.
-/

/- ------------------------------------------------------------------
   src/generate_dataset.py  (concentric-ring "hotspot" pipeline)
   ------------------------------------------------------------------ -/

/-- `CLASS_ID = 0` from generate_dataset.py. -/
def CLASS_ID : ℤ := 0

/-- `calculate_visible_bbox(cx, cy, r_outer, img_w, img_h)`:
returns `(max(0, cx-r), max(0, cy-r), min(img_w, cx+r), min(img_h, cy+r))`. -/
def calculate_visible_bbox (cx cy r_outer img_w img_h : ℤ) : ℤ × ℤ × ℤ × ℤ :=
  (max 0 (cx - r_outer), max 0 (cy - r_outer),
   min img_w (cx + r_outer), min img_h (cy + r_outer))

/-- A YOLO annotation record `(class_id, x_center_norm, y_center_norm,
width_norm, height_norm)` with the four geometric fields normalized. -/
structure YoloRecord where
  cid : ℤ
  xCenterNorm : ℚ
  yCenterNorm : ℚ
  widthNorm : ℚ
  heightNorm : ℚ
deriving DecidableEq, Repr

/-- `to_yolo_format(bbox, img_w, img_h)` from generate_dataset.py. -/
def to_yolo_format (bbox : ℤ × ℤ × ℤ × ℤ) (img_w img_h : ℤ) : YoloRecord :=
  let dw : ℚ := 1 / (img_w : ℚ)
  let dh : ℚ := 1 / (img_h : ℚ)
  let x_center : ℚ := ((bbox.1 : ℚ) + (bbox.2.2.1 : ℚ)) / 2
  let y_center : ℚ := ((bbox.2.1 : ℚ) + (bbox.2.2.2 : ℚ)) / 2
  let width : ℚ := (bbox.2.2.1 : ℚ) - (bbox.1 : ℚ)
  let height : ℚ := (bbox.2.2.2 : ℚ) - (bbox.2.1 : ℚ)
  ⟨CLASS_ID, x_center * dw, y_center * dh, width * dw, height * dh⟩

/-- The persistence guard of `main` in generate_dataset.py:
`if not yolo_data or yolo_data[3] <= 0 or yolo_data[4] <= 0: continue`.
A record is written exactly when this returns `true`. -/
def ringWriteGuard (r : YoloRecord) : Bool :=
  !(decide (r.widthNorm ≤ 0) || decide (r.heightNorm ≤ 0))

/-- `apply_blur(image, max_kernel_size)` from generate_dataset.py.
The external Gaussian blur and the random odd-kernel draw are abstract
parameters; the random state is threaded explicitly. -/
def apply_blur {Image RNG : Type} (gaussianBlur : Image → ℤ → Image)
    (randomOddKernel : RNG → ℤ × RNG) (image : Image)
    (max_kernel_size : ℤ) (rng : RNG) : Image × RNG :=
  if max_kernel_size < 1 then (image, rng)
  else
    let kr := randomOddKernel rng
    (gaussianBlur image kr.1, kr.2)

/- ------------------------------------------------------------------
   src/generate_yolo_dataset.py  (polygon pipeline)
   ------------------------------------------------------------------ -/

/-- `IMAGE_WIDTH = 640`. -/
def IMAGE_WIDTH : ℤ := 640

/-- `IMAGE_HEIGHT = 640`. -/
def IMAGE_HEIGHT : ℤ := 640

/-- `MIN_SHAPE_SIZE = 50`. -/
def MIN_SHAPE_SIZE : ℤ := 50

/-- An absolute box `(x_min, y_min, x_max, y_max)` in exact coordinates. -/
abbrev Box := ℚ × ℚ × ℚ × ℚ

/-- Padding step of `calculate_yolo_annotation`: `pad_w = tight_w * p`,
`pad_h = tight_h * p`, box enlarged by the pad on every side. -/
def enlargedBox (tight : Box) (padding_percentage : ℚ) : Box :=
  let tight_w := tight.2.2.1 - tight.1
  let tight_h := tight.2.2.2 - tight.2.1
  let pad_w := tight_w * padding_percentage
  let pad_h := tight_h * padding_percentage
  (tight.1 - pad_w, tight.2.1 - pad_h, tight.2.2.1 + pad_w, tight.2.2.2 + pad_h)

/-- Clamping step of `calculate_yolo_annotation`:
`final = (max(0,x_min), max(0,y_min), min(img_w,x_max), min(img_h,y_max))`. -/
def clampedBox (b : Box) (img_w img_h : ℤ) : Box :=
  (max 0 b.1, max 0 b.2.1, min (img_w : ℚ) b.2.2.1, min (img_h : ℚ) b.2.2.2)

/-- Degeneracy repair of `calculate_yolo_annotation` on one axis, mirroring
the source statement for x:
`if final_x_max <= final_x_min:` then
`final_x_max = final_x_min + 1 if final_x_min < img_w else img_w`, then
`if final_x_max > img_w: final_x_max = img_w`, then
`if final_x_min >= final_x_max: final_x_min = final_x_max - 1 if final_x_max > 0 else 0`. -/
def repairAxis (fmin fmax : ℚ) (limit : ℤ) : ℚ × ℚ :=
  if fmax ≤ fmin then
    let fmax1 : ℚ := if fmin < (limit : ℚ) then fmin + 1 else (limit : ℚ)
    let fmax2 : ℚ := if fmax1 > (limit : ℚ) then (limit : ℚ) else fmax1
    let fmin1 : ℚ := if fmin ≥ fmax2 then (if fmax2 > 0 then fmax2 - 1 else 0) else fmin
    (fmin1, fmax2)
  else (fmin, fmax)

/-- Degeneracy repair on both axes. -/
def repairedBox (b : Box) (img_w img_h : ℤ) : Box :=
  let x := repairAxis b.1 b.2.2.1 img_w
  let y := repairAxis b.2.1 b.2.2.2 img_h
  (x.1, y.1, x.2, y.2)

/-- The padded, clamped and repaired absolute box of
`calculate_yolo_annotation`. -/
def finalBox (tight : Box) (img_w img_h : ℤ) (padding_percentage : ℚ) : Box :=
  repairedBox (clampedBox (enlargedBox tight padding_percentage) img_w img_h) img_w img_h

/-- `calculate_yolo_annotation(tight_bbox, class_id, img_w, img_h, p)`:
pad, clamp, repair, then normalize center and size by `(img_w, img_h)`. -/
def calculate_yolo_annotation (tight : Box) (class_id : ℤ) (img_w img_h : ℤ)
    (padding_percentage : ℚ) : YoloRecord :=
  let fb := finalBox tight img_w img_h padding_percentage
  let bbox_abs_center_x := (fb.1 + fb.2.2.1) / 2
  let bbox_abs_center_y := (fb.2.1 + fb.2.2.2) / 2
  let bbox_abs_width := fb.2.2.1 - fb.1
  let bbox_abs_height := fb.2.2.2 - fb.2.1
  ⟨class_id, bbox_abs_center_x / (img_w : ℚ), bbox_abs_center_y / (img_h : ℚ),
   bbox_abs_width / (img_w : ℚ), bbox_abs_height / (img_h : ℚ)⟩

/-- `get_triangle_area(p1, p2, p3)` from generate_yolo_dataset.py:
`0.5 * |x1*(y2-y3) + x2*(y3-y1) + x3*(y1-y2)|`. -/
def get_triangle_area (p1 p2 p3 : ℤ × ℤ) : ℚ :=
  (1 / 2) * |(p1.1 * (p2.2 - p3.2) + p2.1 * (p3.2 - p1.2) + p3.1 * (p1.2 - p2.2) : ℚ)|

/-- The degeneracy threshold of `generate_triangle`:
`min_area = (MIN_SHAPE_SIZE * MIN_SHAPE_SIZE) / 10.0`. -/
def min_area : ℚ := ((MIN_SHAPE_SIZE : ℚ) * (MIN_SHAPE_SIZE : ℚ)) / 10

/-- One rejection-sampling attempt of `generate_triangle`: the three vertices
drawn inside the attempt's random bounding window. -/
structure TriAttempt where
  p1 : ℤ × ℤ
  p2 : ℤ × ℤ
  p3 : ℤ × ℤ
deriving DecidableEq, Repr

/-- Acceptance test of the rejection loop: `if area > min_area`. -/
def triAttemptAccepted (a : TriAttempt) : Bool :=
  decide (min_area < get_triangle_area a.p1 a.p2 a.p3)

/-- The fallback window `(base, height, tl_x, tl_y)` freshly sampled by
`generate_triangle` when the attempt budget is exhausted. -/
structure FallbackWindow where
  base : ℤ
  height : ℤ
  tl_x : ℤ
  tl_y : ℤ
deriving DecidableEq, Repr

/-- The deterministic fallback of `generate_triangle`:
`p1 = (tl_x + base // 2, tl_y)`, `p2 = (tl_x, tl_y + height)`,
`p3 = (tl_x + base, tl_y + height)`. -/
def isoscelesTriangle (w : FallbackWindow) : TriAttempt :=
  ⟨(w.tl_x + w.base / 2, w.tl_y), (w.tl_x, w.tl_y + w.height),
   (w.tl_x + w.base, w.tl_y + w.height)⟩

/-- `generate_triangle` with its randomness made explicit: `samples` is the
stream of attempt samples the loop would draw (the `while attempts < 50`
loop inspects at most the first 50 of them and keeps the first whose area
exceeds `min_area`), and `fb` is the window the fallback construction would
sample on exhaustion. -/
def generate_triangle (samples : List TriAttempt) (fb : FallbackWindow) : TriAttempt :=
  match (samples.take 50).find? triAttemptAccepted with
  | some a => a
  | none => isoscelesTriangle fb

/- ------------------------------------------------------------------
   src/split_dataset.py  (dataset partitioner)
   ------------------------------------------------------------------ -/

/-- `TRAIN_RATIO = 0.8`. -/
def TRAIN_RATIO : ℚ := 8 / 10

/-- `os.path.basename` for POSIX paths: the component after the last slash
(the whole path when it has no slash). -/
def pathBasename (p : String) : String :=
  String.mk ((p.toList.reverse.takeWhile (fun c => c ≠ '/')).reverse)

/-- The root part of `os.path.splitext`: everything before the last dot,
except that a dot with only dots before it (within the name) starts no
extension, so e.g. `".txt"` keeps its dot. -/
def splitextRoot (s : String) : String :=
  let rev := s.toList.reverse
  let afterDot := rev.dropWhile (fun c => c ≠ '.')
  let rootRev := afterDot.drop 1
  if afterDot.isEmpty then s
  else if rootRev.all (fun c => c = '.') then s
  else String.mk rootRev.reverse

/-- `get_corresponding_label_file(image_path, labels_dir)`:
`os.path.join(labels_dir, splitext(basename(image_path))[0] + ".txt")`. -/
def get_corresponding_label_file (image_path labels_dir : String) : String :=
  labels_dir ++ "/" ++ splitextRoot (pathBasename image_path) ++ ".txt"

/-- `split_index = int(len(image_files) * TRAIN_RATIO)` (truncation towards
zero of a nonnegative product, i.e. the floor). -/
def splitIndex (n : ℕ) (p : ℚ) : ℕ :=
  (⌊(n : ℚ) * p⌋).toNat

/-- The split of `main` in split_dataset.py: `train_files = files[:split_index]`,
`val_files = files[split_index:]` applied to the already shuffled list. -/
def splitDataset (shuffled : List String) (p : ℚ) : List String × List String :=
  (shuffled.take (splitIndex shuffled.length p),
   shuffled.drop (splitIndex shuffled.length p))

/-- `copy_files(file_list, ...)` with the filesystem abstracted:
`labelExists` says whether a label path exists, `copyImageOk` / `copyLabelOk`
say whether the respective `shutil.copy` call succeeds (an exception is
caught and only suppresses the count increment). Returns `copied_count`. -/
def copy_files (file_list : List String) (source_lbl_dir : String)
    (labelExists copyImageOk copyLabelOk : String → Bool) : ℕ :=
  file_list.foldl (fun copied img_path =>
    let lbl_path := get_corresponding_label_file img_path source_lbl_dir
    if !labelExists lbl_path then copied
    else if copyImageOk img_path && copyLabelOk lbl_path then copied + 1
    else copied) 0

/-- The copies `copy_files` actually performs for one image: nothing when the
label is missing; otherwise the image copy when it succeeds, and the label
copy when it is reached (image copy succeeded) and itself succeeds. -/
def performedCopies (source_lbl_dir : String)
    (labelExists copyImageOk copyLabelOk : String → Bool) (img_path : String) :
    List String :=
  let lbl_path := get_corresponding_label_file img_path source_lbl_dir
  if !labelExists lbl_path then []
  else
    (if copyImageOk img_path then [img_path] else []) ++
    (if copyImageOk img_path && copyLabelOk lbl_path then [lbl_path] else [])

/- ------------------------------------------------------------------
   Label-line formatting (both pipelines)
   ------------------------------------------------------------------ -/

/-- The six decimal digits of `n % 10^6`, most significant first: the
fractional part of a `%.6f`-style rendering. -/
def sixDigits (n : ℕ) : List Char :=
  [Nat.digitChar (n / 100000 % 10), Nat.digitChar (n / 10000 % 10),
   Nat.digitChar (n / 1000 % 10), Nat.digitChar (n / 100 % 10),
   Nat.digitChar (n / 10 % 10), Nat.digitChar (n % 10)]

/-- `"%.6f" % q`: the value scaled by `10^6` and rounded to the nearest
integer, rendered as integer part, a dot, and exactly six digits. -/
def formatFixed6 (q : ℚ) : String :=
  let n : ℤ := round (q * 1000000)
  if n < 0 then
    "-" ++ Nat.repr ((-n).toNat / 1000000) ++ "." ++ String.mk (sixDigits ((-n).toNat % 1000000))
  else
    Nat.repr (n.toNat / 1000000) ++ "." ++ String.mk (sixDigits (n.toNat % 1000000))

/-- `str(i)` for a Python int. -/
def intStr (i : ℤ) : String :=
  if i < 0 then "-" ++ Nat.repr (-i).toNat else Nat.repr i.toNat

/-- The string `calculate_yolo_annotation` returns and the polygon pipeline
writes verbatim as the whole label file:
`f"{class_id} {x:.6f} {y:.6f} {w:.6f} {h:.6f}"` — no trailing newline. -/
def polygonLabelLine (r : YoloRecord) : String :=
  intStr r.cid ++ " " ++ formatFixed6 r.xCenterNorm ++ " " ++
  formatFixed6 r.yCenterNorm ++ " " ++ formatFixed6 r.widthNorm ++ " " ++
  formatFixed6 r.heightNorm

/-- The line the ring pipeline writes:
`f"{cid} {x:.6f} {y:.6f} {w:.6f} {h:.6f}\n"` — newline-terminated. -/
def ringLabelLine (r : YoloRecord) : String :=
  intStr r.cid ++ " " ++ formatFixed6 r.xCenterNorm ++ " " ++
  formatFixed6 r.yCenterNorm ++ " " ++ formatFixed6 r.widthNorm ++ " " ++
  formatFixed6 r.heightNorm ++ "\n"

/-- A string of the shape `"<digits>.<exactly six digits>"`: an integer part
followed by a six-decimal-place fraction. -/
def sixDecimalForm (s : String) : Prop :=
  ∃ ip fr : ℕ, fr < 1000000 ∧ s = Nat.repr ip ++ "." ++ String.mk (sixDigits fr)

/- ------------------------------------------------------------------
   Shared lemmas
   ------------------------------------------------------------------ -/

/-- After clamping, the repair step always yields `0 ≤ min < max ≤ limit`
on each axis, provided the canvas dimension is at least 1, the lower edge
is nonnegative and the upper edge is at most the dimension. -/
lemma repairAxis_bounds (fmin fmax : ℚ) (limit : ℤ) (hL : 1 ≤ limit)
    (h0 : 0 ≤ fmin) (hM : fmax ≤ (limit : ℚ)) :
    0 ≤ (repairAxis fmin fmax limit).1 ∧
    (repairAxis fmin fmax limit).1 < (repairAxis fmin fmax limit).2 ∧
    (repairAxis fmin fmax limit).2 ≤ (limit : ℚ) := by
  have hL' : (1 : ℚ) ≤ (limit : ℚ) := by exact_mod_cast hL
  simp only [repairAxis]
  split_ifs <;> refine ⟨?_, ?_, ?_⟩ <;> dsimp only <;> linarith

/-- The clamped box has nonnegative lower edges and upper edges bounded by
the canvas. -/
lemma clampedBox_bounds (b : Box) (img_w img_h : ℤ) :
    0 ≤ (clampedBox b img_w img_h).1 ∧ 0 ≤ (clampedBox b img_w img_h).2.1 ∧
    (clampedBox b img_w img_h).2.2.1 ≤ (img_w : ℚ) ∧
    (clampedBox b img_w img_h).2.2.2 ≤ (img_h : ℚ) :=
  ⟨le_max_left 0 _, le_max_left 0 _, min_le_left _ _, min_le_left _ _⟩

/-- The final (padded, clamped, repaired) box always satisfies
`0 ≤ x_min < x_max ≤ W` and `0 ≤ y_min < y_max ≤ H` when `W, H ≥ 1`. -/
lemma finalBox_bounds (tight : Box) (W H : ℤ) (pad : ℚ) (hW : 1 ≤ W) (hH : 1 ≤ H) :
    (0 ≤ (finalBox tight W H pad).1 ∧ (finalBox tight W H pad).1 < (finalBox tight W H pad).2.2.1 ∧
      (finalBox tight W H pad).2.2.1 ≤ (W : ℚ)) ∧
    (0 ≤ (finalBox tight W H pad).2.1 ∧ (finalBox tight W H pad).2.1 < (finalBox tight W H pad).2.2.2 ∧
      (finalBox tight W H pad).2.2.2 ≤ (H : ℚ)) := by
  obtain ⟨hx0, hy0, hxM, hyM⟩ := clampedBox_bounds (enlargedBox tight pad) W H
  constructor
  · exact repairAxis_bounds _ _ _ hW hx0 hxM
  · exact repairAxis_bounds _ _ _ hH hy0 hyM

/- ------------------------------------------------------------------
   C1 — padding scenario B
   ------------------------------------------------------------------ -/

/-- C1, counterexample: for the tight box `(10,10)-(110,160)` with padding
fraction `0.07`, the annotator's enlarged box is not the spec's
`(3, 6.5, 117, 166.5)`, and clamping does change the actual enlarged box
(it raises `y_min` from `-0.5` to `0`). -/
theorem c1_padding_scenario_counterexample :
    enlargedBox (10, 10, 110, 160) (7/100) ≠ (3, 13/2, 117, 333/2) ∧
    clampedBox (enlargedBox (10, 10, 110, 160) (7/100)) 640 640 ≠
      enlargedBox (10, 10, 110, 160) (7/100) := by
  norm_num [enlargedBox, clampedBox, Prod.ext_iff]

/-- C1, amended: the annotator enlarges the tight box `(10,10)-(110,160)`
with padding `0.07` to `(3, -0.5, 117, 170.5)`; clamping raises `y_min` to
`0`, giving `(3, 0, 117, 170.5)`; the normalized annotation has center
`(0.09375, 0.133203125)` and size `(0.178125, 0.26640625)` at `W = H = 640`
(as exact rationals: `3/32`, `341/2560`, `57/320`, `341/1280`). -/
theorem c1_padding_scenario :
    enlargedBox (10, 10, 110, 160) (7/100) = (3, -1/2, 117, 341/2) ∧
    clampedBox (3, -1/2, 117, 341/2) 640 640 = (3, 0, 117, 341/2) ∧
    finalBox (10, 10, 110, 160) 640 640 (7/100) = (3, 0, 117, 341/2) ∧
    calculate_yolo_annotation (10, 10, 110, 160) 0 640 640 (7/100) =
      ⟨0, 3/32, 341/2560, 57/320, 341/1280⟩ := by
  norm_num [enlargedBox, clampedBox, finalBox, repairedBox, repairAxis,
    calculate_yolo_annotation, YoloRecord.mk.injEq, Prod.ext_iff]

/- ------------------------------------------------------------------
   C2 — ring-mode bbox clamping is the identity
   ------------------------------------------------------------------ -/

/-- C2: for every outer radius `1 ≤ r ≤ min(W,H)/2` and center
`(cx, cy) ∈ [r, W-r] × [r, H-r]`, the box `(cx-r, cy-r, cx+r, cy+r)` lies
inside `[0,W] × [0,H]` and `calculate_visible_bbox` returns it exactly
(the clamps are the identity). -/
theorem c2_ring_bbox_in_canvas (W H r cx cy : ℤ)
    (hr1 : 1 ≤ r) (hr2 : r ≤ min W H / 2)
    (hcx1 : r ≤ cx) (hcx2 : cx ≤ W - r) (hcy1 : r ≤ cy) (hcy2 : cy ≤ H - r) :
    0 ≤ cx - r ∧ cx + r ≤ W ∧ 0 ≤ cy - r ∧ cy + r ≤ H ∧
    calculate_visible_bbox cx cy r W H = (cx - r, cy - r, cx + r, cy + r) := by
  refine ⟨by omega, by omega, by omega, by omega, ?_⟩
  simp only [calculate_visible_bbox, Prod.mk.injEq]
  omega

/-- C2, witness: `W = H = 640`, `r = 200`, center `(320, 320)`. -/
theorem c2_ring_bbox_in_canvas_witness :
    0 ≤ (320 : ℤ) - 200 ∧ (320 : ℤ) + 200 ≤ 640 ∧
    0 ≤ (320 : ℤ) - 200 ∧ (320 : ℤ) + 200 ≤ 640 ∧
    calculate_visible_bbox 320 320 200 640 640 = (320 - 200, 320 - 200, 320 + 200, 320 + 200) :=
  c2_ring_bbox_in_canvas 640 640 200 320 320 (by decide) (by decide)
    (by decide) (by decide) (by decide) (by decide)

/- ------------------------------------------------------------------
   C3 — degeneracy repair
   ------------------------------------------------------------------ -/

/-- C3, counterexample: for the degenerate tight box
`(639.5, 0, 639.5, 10)` on a 640-wide canvas with padding `0.07`, the
x-axis is degenerate after clamping (`x_max ≤ x_min`), and the repaired
box has x-span `0.5 < 1`: the repair does not always force a span of at
least one pixel. -/
theorem c3_repair_counterexample :
    (clampedBox (enlargedBox (1279/2, 0, 1279/2, 10) (7/100)) 640 640).2.2.1 ≤
      (clampedBox (enlargedBox (1279/2, 0, 1279/2, 10) (7/100)) 640 640).1 ∧
    (finalBox (1279/2, 0, 1279/2, 10) 640 640 (7/100)).2.2.1 -
      (finalBox (1279/2, 0, 1279/2, 10) 640 640 (7/100)).1 < 1 := by
  norm_num [enlargedBox, clampedBox, finalBox, repairedBox, repairAxis]

/-- C3, amended: for every input tight box and every canvas with
`W ≥ 1`, `H ≥ 1`, if after padding and clamping `x_max ≤ x_min` (or the
`y` analogue) the repair step produces a box with
`0 ≤ final_x_min < final_x_max ≤ W` (resp. `0 ≤ final_y_min < final_y_max ≤ H`):
a positive span that never exceeds the canvas (but possibly below one
pixel for fractional inputs). -/
theorem c3_repair_bounds (tight : Box) (W H : ℤ) (pad : ℚ)
    (hW : 1 ≤ W) (hH : 1 ≤ H) :
    ((clampedBox (enlargedBox tight pad) W H).2.2.1 ≤
        (clampedBox (enlargedBox tight pad) W H).1 →
      0 ≤ (finalBox tight W H pad).1 ∧
      (finalBox tight W H pad).1 < (finalBox tight W H pad).2.2.1 ∧
      (finalBox tight W H pad).2.2.1 ≤ (W : ℚ)) ∧
    ((clampedBox (enlargedBox tight pad) W H).2.2.2 ≤
        (clampedBox (enlargedBox tight pad) W H).2.1 →
      0 ≤ (finalBox tight W H pad).2.1 ∧
      (finalBox tight W H pad).2.1 < (finalBox tight W H pad).2.2.2 ∧
      (finalBox tight W H pad).2.2.2 ≤ (H : ℚ)) := by
  have h := finalBox_bounds tight W H pad hW hH
  exact ⟨fun _ => h.1, fun _ => h.2⟩

/-- C3, witness: the fully off-canvas tight box `(700, 700, 710, 710)` on a
`640 × 640` canvas triggers the degeneracy repair on both axes; the
repaired box is `(639, 639, 640, 640)`. -/
theorem c3_repair_bounds_witness :
    (0 ≤ (finalBox (700, 700, 710, 710) 640 640 (7/100)).1 ∧
      (finalBox (700, 700, 710, 710) 640 640 (7/100)).1 <
        (finalBox (700, 700, 710, 710) 640 640 (7/100)).2.2.1 ∧
      (finalBox (700, 700, 710, 710) 640 640 (7/100)).2.2.1 ≤ ((640 : ℤ) : ℚ)) ∧
    finalBox (700, 700, 710, 710) 640 640 (7/100) = (639, 639, 640, 640) :=
  ⟨(c3_repair_bounds (700, 700, 710, 710) 640 640 (7/100) (by norm_num) (by norm_num)).1
      (by norm_num [enlargedBox, clampedBox]),
   by norm_num [enlargedBox, clampedBox, finalBox, repairedBox, repairAxis, Prod.ext_iff]⟩

/- ------------------------------------------------------------------
   C4 — persisted records have positive normalized size
   ------------------------------------------------------------------ -/

/-- C4: every annotation record written by either pipeline has
`width_norm > 0` and `height_norm > 0`. In the polygon pipeline the repair
step makes every annotation positive outright (for any canvas with
`W, H ≥ 1`); in the ring pipeline the explicit write guard only lets
positive records through. -/
theorem c4_written_records_positive :
    (∀ (tight : Box) (class_id W H : ℤ) (pad : ℚ), 1 ≤ W → 1 ≤ H →
      0 < ( calculate_yolo_annotation tight class_id W H pad).widthNorm ∧
      0 < ( calculate_yolo_annotation tight class_id W H pad).heightNorm) ∧
    (∀ r : YoloRecord, ringWriteGuard r = true →
      0 < r.widthNorm ∧ 0 < r.heightNorm) := by
  constructor
  · intro tight class_id W H pad hW hH
    obtain ⟨⟨_, hx, _⟩, ⟨_, hy, _⟩⟩ := finalBox_bounds tight W H pad hW hH
    have hW' : (0 : ℚ) < (W : ℚ) := by exact_mod_cast lt_of_lt_of_le one_pos hW
    have hH' : (0 : ℚ) < (H : ℚ) := by exact_mod_cast lt_of_lt_of_le one_pos hH
    constructor
    · exact div_pos (by linarith) hW'
    · exact div_pos (by linarith) hH'
  · intro r h
    simp only [ringWriteGuard, Bool.not_eq_true', Bool.or_eq_false_iff,
      decide_eq_false_iff_not, not_le] at h
    exact h

/-- C4, witness: the polygon part at scenario B's box, the ring part at a
record passing the guard. -/
theorem c4_written_records_positive_witness :
    (0 < ( calculate_yolo_annotation (10, 10, 110, 160) 0 640 640 (7/100)).widthNorm ∧
      0 < ( calculate_yolo_annotation (10, 10, 110, 160) 0 640 640 (7/100)).heightNorm) ∧
    (0 < (⟨0, 1/2, 1/2, 5/8, 5/8⟩ : YoloRecord).widthNorm ∧
      0 < (⟨0, 1/2, 1/2, 5/8, 5/8⟩ : YoloRecord).heightNorm) :=
  ⟨c4_written_records_positive.1 (10, 10, 110, 160) 0 640 640 (7/100)
      (by norm_num) (by norm_num),
   c4_written_records_positive.2 ⟨0, 1/2, 1/2, 5/8, 5/8⟩
      (by norm_num [ringWriteGuard])⟩

/- ------------------------------------------------------------------
   C5 — round-trip denormalization
   ------------------------------------------------------------------ -/

/-- C5: denormalizing either annotator's output with the same `(W, H)` —
`x_min = (x_center_norm - width_norm/2)·W` and analogues — reproduces the
padded/clamped absolute box (resp. the visible box) within one pixel
(in fact exactly). -/
theorem c5_round_trip :
    (∀ (tight : Box) (class_id W H : ℤ) (pad : ℚ), 1 ≤ W → 1 ≤ H →
      |(( calculate_yolo_annotation tight class_id W H pad).xCenterNorm -
          ( calculate_yolo_annotation tight class_id W H pad).widthNorm / 2) * W -
        (finalBox tight W H pad).1| ≤ 1 ∧
      |(( calculate_yolo_annotation tight class_id W H pad).yCenterNorm -
          ( calculate_yolo_annotation tight class_id W H pad).heightNorm / 2) * H -
        (finalBox tight W H pad).2.1| ≤ 1 ∧
      |(( calculate_yolo_annotation tight class_id W H pad).xCenterNorm +
          ( calculate_yolo_annotation tight class_id W H pad).widthNorm / 2) * W -
        (finalBox tight W H pad).2.2.1| ≤ 1 ∧
      |(( calculate_yolo_annotation tight class_id W H pad).yCenterNorm +
          ( calculate_yolo_annotation tight class_id W H pad).heightNorm / 2) * H -
        (finalBox tight W H pad).2.2.2| ≤ 1) ∧
    (∀ (bbox : ℤ × ℤ × ℤ × ℤ) (W H : ℤ), 1 ≤ W → 1 ≤ H →
      |((to_yolo_format bbox W H).xCenterNorm -
          (to_yolo_format bbox W H).widthNorm / 2) * W - (bbox.1 : ℚ)| ≤ 1 ∧
      |((to_yolo_format bbox W H).yCenterNorm -
          (to_yolo_format bbox W H).heightNorm / 2) * H - (bbox.2.1 : ℚ)| ≤ 1 ∧
      |((to_yolo_format bbox W H).xCenterNorm +
          (to_yolo_format bbox W H).widthNorm / 2) * W - (bbox.2.2.1 : ℚ)| ≤ 1 ∧
      |((to_yolo_format bbox W H).yCenterNorm +
          (to_yolo_format bbox W H).heightNorm / 2) * H - (bbox.2.2.2 : ℚ)| ≤ 1) := by
  have habs : ∀ q : ℚ, q = 0 → |q| ≤ 1 := by
    intro q h; rw [h]; norm_num
  constructor
  · intro tight class_id W H pad hW hH
    have hW' : (W : ℚ) ≠ 0 := by positivity
    have hH' : (H : ℚ) ≠ 0 := by positivity
    refine ⟨habs _ ?_, habs _ ?_, habs _ ?_, habs _ ?_⟩ <;>
      · simp only [ calculate_yolo_annotation]
        field_simp
        ring
  · intro bbox W H hW hH
    have hW' : (W : ℚ) ≠ 0 := by positivity
    have hH' : (H : ℚ) ≠ 0 := by positivity
    refine ⟨habs _ ?_, habs _ ?_, habs _ ?_, habs _ ?_⟩ <;>
      · simp only [to_yolo_format]
        field_simp
        ring

/-- C5, witness: scenario B's box for the polygon annotator and the outer
ring box `(120, 120, 520, 520)` for the ring annotator. -/
theorem c5_round_trip_witness :
    |(( calculate_yolo_annotation (10, 10, 110, 160) 0 640 640 (7/100)).xCenterNorm -
        ( calculate_yolo_annotation (10, 10, 110, 160) 0 640 640 (7/100)).widthNorm / 2) * 640 -
      (finalBox (10, 10, 110, 160) 640 640 (7/100)).1| ≤ 1 ∧
    |((to_yolo_format (120, 120, 520, 520) 640 640).xCenterNorm -
        (to_yolo_format (120, 120, 520, 520) 640 640).widthNorm / 2) * 640 -
      ((120 : ℤ) : ℚ)| ≤ 1 :=
  ⟨(c5_round_trip.1 (10, 10, 110, 160) 0 640 640 (7/100) (by norm_num) (by norm_num)).1,
   (c5_round_trip.2 (120, 120, 520, 520) 640 640 (by norm_num) (by norm_num)).1⟩

/- ------------------------------------------------------------------
   C6 — label line format
   ------------------------------------------------------------------ -/

/-- A nonnegative value is always rendered by `formatFixed6` as an integer
part, a dot, and exactly six digits. -/
lemma formatFixed6_sixDecimalForm (q : ℚ) (hq : 0 ≤ q) :
    sixDecimalForm (formatFixed6 q) := by
  have hn : 0 ≤ round (q * 1000000) := by
    rw [round_eq]
    refine Int.floor_nonneg.mpr ?_
    linarith
  refine ⟨(round (q * 1000000)).toNat / 1000000,
    (round (q * 1000000)).toNat % 1000000, Nat.mod_lt _ (by norm_num), ?_⟩
  simp only [formatFixed6]
  rw [if_neg (by omega)]

/-- C6, counterexample: the polygon pipeline writes the annotation string
verbatim as the whole label file, and for scenario B's record that string
is `"0 0.093750 0.133203 0.178125 0.266406"` — it is not
newline-terminated. -/
theorem c6_label_newline_counterexample :
    polygonLabelLine ( calculate_yolo_annotation (10, 10, 110, 160) 0 640 640 (7/100)) =
      "0 0.093750 0.133203 0.178125 0.266406" ∧
    ("0 0.093750 0.133203 0.178125 0.266406" : String).toList.getLastD ' ' ≠ '\n' := by
  constructor
  · have hr : calculate_yolo_annotation (10, 10, 110, 160) 0 640 640 (7/100) =
        ⟨0, 3/32, 341/2560, 57/320, 341/1280⟩ := by
      norm_num [enlargedBox, clampedBox, finalBox, repairedBox, repairAxis,
        calculate_yolo_annotation, YoloRecord.mk.injEq, Prod.ext_iff]
    rw [hr]
    have h1 : round ((3 : ℚ)/32 * 1000000) = 93750 := by norm_num [round_eq]
    have h2 : round ((341 : ℚ)/2560 * 1000000) = 133203 := by norm_num [round_eq]
    have h3 : round ((57 : ℚ)/320 * 1000000) = 178125 := by norm_num [round_eq]
    have h4 : round ((341 : ℚ)/1280 * 1000000) = 266406 := by norm_num [round_eq]
    simp only [polygonLabelLine, formatFixed6, intStr, h1, h2, h3, h4]
    norm_num
    rfl
  · decide

/-- C6, amended: in both pipelines the label file holds one line
`"<class_id> <x_center> <y_center> <width> <height>"`, the four floating
fields formatted to exactly 6 decimal places and space-separated; the ring
pipeline's line is newline-terminated, while the polygon pipeline writes
the same line without the trailing newline. -/
theorem c6_label_line_format :
    (∀ r : YoloRecord, ringLabelLine r = polygonLabelLine r ++ "\n") ∧
    (∀ r : YoloRecord, 0 ≤ r.xCenterNorm → 0 ≤ r.yCenterNorm →
      0 ≤ r.widthNorm → 0 ≤ r.heightNorm →
      ∃ s1 s2 s3 s4 : String,
        polygonLabelLine r =
          intStr r.cid ++ " " ++ s1 ++ " " ++ s2 ++ " " ++ s3 ++ " " ++ s4 ∧
        sixDecimalForm s1 ∧ sixDecimalForm s2 ∧ sixDecimalForm s3 ∧
        sixDecimalForm s4) ∧
    (∀ n : ℕ, (String.mk (sixDigits n)).length = 6) := by
  refine ⟨fun r => rfl, ?_, fun n => rfl⟩
  intro r h1 h2 h3 h4
  exact ⟨formatFixed6 r.xCenterNorm, formatFixed6 r.yCenterNorm,
    formatFixed6 r.widthNorm, formatFixed6 r.heightNorm, rfl,
    formatFixed6_sixDecimalForm _ h1, formatFixed6_sixDecimalForm _ h2,
    formatFixed6_sixDecimalForm _ h3, formatFixed6_sixDecimalForm _ h4⟩

/-- C6, witness: the field structure instantiated at scenario B's record. -/
theorem c6_label_line_format_witness :
    ∃ s1 s2 s3 s4 : String,
      polygonLabelLine ⟨0, 3/32, 341/2560, 57/320, 341/1280⟩ =
        intStr (⟨0, 3/32, 341/2560, 57/320, 341/1280⟩ : YoloRecord).cid ++ " " ++
          s1 ++ " " ++ s2 ++ " " ++ s3 ++ " " ++ s4 ∧
      sixDecimalForm s1 ∧ sixDecimalForm s2 ∧ sixDecimalForm s3 ∧
      sixDecimalForm s4 :=
  c6_label_line_format.2.1 ⟨0, 3/32, 341/2560, 57/320, 341/1280⟩
    (by norm_num) (by norm_num) (by norm_num) (by norm_num)

/- ------------------------------------------------------------------
   C7 — partition sizes and determinism
   ------------------------------------------------------------------ -/

/-- C7: for any length-preserving shuffle (Python's seeded
`random.shuffle` permutes in place) and any list of 1000 discovered
images, the split at `int(N * 0.8)` yields exactly 800 train and 200 val
files; the partition is a pure function of the shuffled list, so a second
run on the same enumerated list with the same seed produces the identical
membership. -/
theorem c7_partition_split (shuffle : List String → List String)
    (files : List String)
    (hlen : ∀ l : List String, (shuffle l).length = l.length)
    (hN : files.length = 1000) :
    (splitDataset (shuffle files) TRAIN_RATIO).1.length = 800 ∧
    (splitDataset (shuffle files) TRAIN_RATIO).2.length = 200 ∧
    splitDataset (shuffle files) TRAIN_RATIO =
      splitDataset (shuffle files) TRAIN_RATIO := by
  have h : (shuffle files).length = 1000 := by rw [hlen, hN]
  have hsi : splitIndex 1000 TRAIN_RATIO = 800 := by
    have hf : (⌊(1000 : ℚ) * (8 / 10)⌋ : ℤ) = 800 := by norm_num
    simp only [splitIndex, TRAIN_RATIO, Nat.cast_ofNat, hf]
    rfl
  refine ⟨?_, ?_, rfl⟩
  · simp only [splitDataset, List.length_take, h, hsi]
    omega
  · simp only [splitDataset, List.length_drop, h, hsi]

/-- C7, witness: the identity shuffle on 1000 concrete file names. -/
theorem c7_partition_split_witness :
    (splitDataset (id (List.replicate 1000 "img.png")) TRAIN_RATIO).1.length = 800 ∧
    (splitDataset (id (List.replicate 1000 "img.png")) TRAIN_RATIO).2.length = 200 ∧
    splitDataset (id (List.replicate 1000 "img.png")) TRAIN_RATIO =
      splitDataset (id (List.replicate 1000 "img.png")) TRAIN_RATIO :=
  c7_partition_split id (List.replicate 1000 "img.png") (fun l => rfl)
    (by rw [List.length_replicate])

/- ------------------------------------------------------------------
   C8 — missing labels are skipped, count is of copied pairs
   ------------------------------------------------------------------ -/

/-- The fold of `copy_files` counts exactly the images whose label exists
and whose two copies both succeed. -/
lemma copy_files_foldl (dir : String) (le ci cl : String → Bool) :
    ∀ (files : List String) (n : ℕ),
      files.foldl (fun copied img_path =>
        let lbl_path := get_corresponding_label_file img_path dir
        if !le lbl_path then copied
        else if ci img_path && cl lbl_path then copied + 1
        else copied) n =
      n + (files.filter (fun img =>
        le (get_corresponding_label_file img dir) && ci img &&
        cl (get_corresponding_label_file img dir))).length := by
  intro files
  induction files with
  | nil => intro n; simp
  | cons a t ih =>
    intro n
    rw [List.foldl_cons, ih, List.filter_cons]
    cases h1 : le (get_corresponding_label_file a dir) <;>
      cases h2 : ci a <;>
      cases h3 : cl (get_corresponding_label_file a dir) <;>
      simp [h1, h2, h3] <;> omega

/-- C8: an image whose derived label path does not exist is skipped with no
copy performed at all (`copy_files` is total, so the run never fails);
`copied_count` equals the number of images whose label exists and whose
image and label copies both succeed; and the label path is derived as the
image basename with a `.txt` extension inside the label directory. -/
theorem c8_copy_skip_missing_labels :
    (∀ (dir : String) (le ci cl : String → Bool) (img : String),
      le (get_corresponding_label_file img dir) = false →
      performedCopies dir le ci cl img = []) ∧
    (∀ (dir : String) (le ci cl : String → Bool) (files : List String),
      copy_files files dir le ci cl =
        (files.filter (fun img =>
          le (get_corresponding_label_file img dir) && ci img &&
          cl (get_corresponding_label_file img dir))).length) ∧
    get_corresponding_label_file ("hotspot_dataset/images/train/hotspot_00001.png")
        ("hotspot_dataset/labels/train") =
      "hotspot_dataset/labels/train/hotspot_00001.txt" := by
  refine ⟨?_, ?_, by decide⟩
  · intro dir le ci cl img h
    simp [performedCopies, h]
  · intro dir le ci cl files
    rw [copy_files, copy_files_foldl]
    omega

/-- C8, witness: a two-image run where the first image's label is missing:
nothing is copied for it and the count is 1 (only the second pair). -/
theorem c8_copy_skip_missing_labels_witness :
    performedCopies "labels" (fun _ => false) (fun _ => true) (fun _ => true)
      "images/a.png" = [] ∧
    copy_files ["images/a.png", "images/b.png"] "labels"
      (fun l => decide (l = "labels/b.txt")) (fun _ => true) (fun _ => true) =
      (List.filter (fun img =>
        (fun l => decide (l = "labels/b.txt")) (get_corresponding_label_file img "labels") &&
        (fun _ => true) img &&
        (fun _ => true) (get_corresponding_label_file img "labels"))
        ["images/a.png", "images/b.png"]).length :=
  ⟨c8_copy_skip_missing_labels.1 "labels" (fun _ => false) (fun _ => true)
      (fun _ => true) "images/a.png" rfl,
   c8_copy_skip_missing_labels.2.1 "labels" (fun l => decide (l = "labels/b.txt"))
      (fun _ => true) (fun _ => true) ["images/a.png", "images/b.png"]⟩

/- ------------------------------------------------------------------
   C9 — bounded triangle rejection sampling with fallback
   ------------------------------------------------------------------ -/

/-- C9: `generate_triangle` always terminates with three vertices (it is a
total function into triangles): it inspects at most the first 50 attempt
samples; any accepted result has area strictly above
`MIN_SHAPE_SIZE² / 10 = 250`; and when all 50 attempts are rejected it
returns the deterministic isosceles triangle inscribed in the freshly
sampled fallback window. -/
theorem c9_generate_triangle_bounded (samples : List TriAttempt)
    (fb : FallbackWindow) :
    generate_triangle samples fb = generate_triangle (samples.take 50) fb ∧
    (∀ a : TriAttempt, (samples.take 50).find? triAttemptAccepted = some a →
      generate_triangle samples fb = a ∧
      min_area < get_triangle_area a.p1 a.p2 a.p3) ∧
    ((∀ a ∈ samples.take 50, get_triangle_area a.p1 a.p2 a.p3 ≤ min_area) →
      generate_triangle samples fb = isoscelesTriangle fb) := by
  refine ⟨?_, ?_, ?_⟩
  · simp [generate_triangle, List.take_take]
  · intro a ha
    refine ⟨by simp [generate_triangle, ha], ?_⟩
    have h := List.find?_some ha
    simpa [triAttemptAccepted] using h
  · intro h
    have hnone : (samples.take 50).find? triAttemptAccepted = none := by
      rw [List.find?_eq_none]
      intro x hx
      simp only [triAttemptAccepted, decide_eq_true_eq, not_lt]
      exact h x hx
    simp [generate_triangle, hnone]

/-- C9, witness: with every attempt rejected (an empty sample stream) the
fallback isosceles triangle inscribed in the window
`base = 100, height = 60, tl = (0,0)` is returned. -/
theorem c9_generate_triangle_bounded_witness :
    generate_triangle [] ⟨100, 60, 0, 0⟩ = isoscelesTriangle ⟨100, 60, 0, 0⟩ ∧
    isoscelesTriangle ⟨100, 60, 0, 0⟩ = ⟨(50, 0), (0, 60), (100, 60)⟩ :=
  ⟨(c9_generate_triangle_bounded [] ⟨100, 60, 0, 0⟩).2.2 (by simp), by decide⟩

/- ------------------------------------------------------------------
   C10 — blur skipped entirely for max_kernel_size < 1
   ------------------------------------------------------------------ -/

/-- C10: for every input image and every `max_kernel_size < 1`,
`apply_blur` returns the image unchanged and does not touch the random
state (no randomness consumed). -/
theorem c10_blur_skipped {Image RNG : Type} (gaussianBlur : Image → ℤ → Image)
    (randomOddKernel : RNG → ℤ × RNG) (image : Image)
    (max_kernel_size : ℤ) (rng : RNG) (h : max_kernel_size < 1) :
    apply_blur gaussianBlur randomOddKernel image max_kernel_size rng =
      (image, rng) := by
  simp [apply_blur, h]

/-- C10, witness: kernel bound `0 < 1` on a concrete image/state. -/
theorem c10_blur_skipped_witness :
    apply_blur (fun (i : ℕ) (_ : ℤ) => i + 1) (fun (r : ℕ) => ((3 : ℤ), r + 1))
      5 0 7 = (5, 7) :=
  c10_blur_skipped (fun (i : ℕ) (_ : ℤ) => i + 1) (fun (r : ℕ) => ((3 : ℤ), r + 1))
    5 0 7 (by decide)
